import Mathlib

/-!
Verification development for the StreamSpark donation-polling service.

The Python sources are shallowly embedded:
  * `src/utils/files.py`            → `isSafeVideoFilename`
  * `src/services/video_generator.py` (`get_generation_status`) → `statusProgress`
  * `src/services/currency_converter.py` (`convert_to_rub`)    → `convertToRub`
  * `src/services/donation_alerts_client.py` (`fetch_donations`,
    `refresh_access_token`) → `fetchDonations`, `refreshAccessToken`
  * `src/services/donation_alerts_poller.py`
    (`_process_single_donation`, `_is_test_donation`, `_record_recent`) →
    `processTrace` / `processSingleDonation`, `isTestDonation`, `recordRecent`

Python dictionary fields that may be absent are `Option`-valued; Python
truthiness of a string (absent / empty ↦ false) is made explicit at each
use site, mirroring the `or`-defaults of the source.  Monetary amounts are
modelled as rationals (only order comparisons and a single multiplication
matter to the properties below).  Wall-clock freshness classification and
the network-backed exchange-rate lookup are oracle parameters
(`fresh : Donation → Bool`, `getRate : String → Option ℚ`): they stand for
`_is_fresh (_parse_created_at …)` at the current instant and for
`CurrencyConverter._get_exchange_rate`, both of which depend on real time
or the network, not on poller state.
-/

namespace StreamSpark

/-- Python truthiness of an optional string: `None` and `""` are falsy. -/
def truthyStr : Option String → Bool
  | none => false
  | some s => s ≠ ""

/-- ASCII lower-casing, standing for Python `str.lower()` (all strings the
program lower-cases — statuses, filenames — are ASCII). -/
def lowerAscii (s : String) : String :=
  String.mk (s.data.map Char.toLower)

/-- ASCII upper-casing, standing for Python `str.upper()`. -/
def upperAscii (s : String) : String :=
  String.mk (s.data.map Char.toUpper)

/-! ## `src/utils/files.py` -/

/-- The constant `_ALLOWED_FILENAME_CHARS` from `src/utils/files.py`. -/
def allowedFilenameChars : List Char :=
  "abcdefghijklmnopqrstuvwxyzABCDEFGHIJKLMNOPQRSTUVWXYZ0123456789-_.".toList

/-- The function `is_safe_video_filename` from `src/utils/files.py`: the sequence of
early-return checks, in source order. -/
def isSafeVideoFilename (filename : String) : Bool :=
  if filename = "" then false
  else if "..".toList <:+: filename.toList then false
  else if "/".toList <:+: filename.toList then false
  else if "\\".toList <:+: filename.toList then false
  else if ¬ (".mp4".toList <:+ (lowerAscii filename).toList) then false
  else if ¬ (filename.toList.all (fun c => allowedFilenameChars.contains c)) then false
  else true

/-- The filename-safety contract as the specification words it: non-empty,
no `..` / `/` / `\`, ends case-insensitively in `.mp4`, characters drawn
from ASCII letters, digits, dash, underscore, dot. -/
def SafeFilenameSpec (filename : String) : Prop :=
  filename ≠ "" ∧
  ¬ ("..".toList <:+: filename.toList) ∧
  ¬ ("/".toList <:+: filename.toList) ∧
  ¬ ("\\".toList <:+: filename.toList) ∧
  (".mp4".toList <:+ (lowerAscii filename).toList) ∧
  (∀ c ∈ filename.toList, c ∈ allowedFilenameChars)

/-! ## `VideoGenerator.get_generation_status` (src/services/video_generator.py) -/

/-- The status→percentage dictionary literal in `get_generation_status`. -/
def progressMapping : List (String × Nat) :=
  [("idle", 0), ("starting", 5), ("queued", 10), ("waiting", 15),
   ("active", 30), ("generating", 70), ("completed", 85),
   ("downloading", 90), ("done", 100), ("timeout", 100), ("error", 100)]

/-- The derived progress of `get_generation_status`, as a function of the
stored `status` field: `(state.get("status") or "idle").lower()` then
`mapping.get(status, 50)`. -/
def statusProgress (statusField : Option String) : Nat :=
  let s := match statusField with
    | none => "idle"
    | some s => if s = "" then "idle" else s
  match progressMapping.lookup (lowerAscii s) with
  | some v => v
  | none => 50

/-! ## `CurrencyConverter.convert_to_rub` (src/services/currency_converter.py) -/

/-- Result of a conversion: the returned value, and whether
`_get_exchange_rate` (cache + external API) was consulted at all. -/
structure ConvertResult where
  value : Option ℚ
  consultedRates : Bool
deriving DecidableEq, Repr

/-- The method `convert_to_rub`: normalise `(from_currency or "RUB").upper()`, identity
on RUB, otherwise multiply by the looked-up rate (`getRate` stands for
`_get_exchange_rate from_currency "RUB"`). -/
def convertToRub (getRate : String → Option ℚ) (amount : ℚ)
    (fromCurrency : Option String) : ConvertResult :=
  let fc := upperAscii (match fromCurrency with
    | none => "RUB"
    | some s => if s = "" then "RUB" else s)
  if fc = "RUB" then ⟨some amount, false⟩
  else
    match getRate fc with
    | none => ⟨none, true⟩
    | some rate => ⟨some (amount * rate), true⟩

/-! ## `DonationAlertsClient` (src/services/donation_alerts_client.py) -/

/-- One donation record as fetched from the provider.  Every field a Python
dict may lack is `Option`-valued; the four boolean-ish test flags record
"key present with this truthiness". -/
structure Donation where
  id : Option String
  username : Option String
  amount : Option ℚ
  currency : Option String
  message : Option String
  created_at : Option String
  is_test : Option Bool
  isTest : Option Bool
  test : Option Bool
  testing : Option Bool
  alert_type : Option String
  type : Option String
deriving DecidableEq, Repr

/-- Outcome of one outbound HTTP GET in `fetch_donations`: a network-level
exception, or a response with a status code and (for 200) the parsed
`data` list (`none` stands for a body without a `data` field). -/
inductive HttpOutcome
  | netError
  | response (status : Nat) (data : Option (List Donation))
deriving DecidableEq, Repr

/-- Observable result of `fetch_donations`: the returned value plus how
many refresh attempts, how many retries of the GET, and whether the
fixed 429 back-off sleep ran. -/
structure FetchResult where
  value : Option (List Donation)
  refreshAttempts : Nat
  retries : Nat
  backedOff : Bool
deriving DecidableEq, Repr

/-- The method `DonationAlertsClient.fetch_donations`.  `hasToken` is
`bool(self.api_token)`; `first` is the outcome of the initial GET;
`refreshSucceeds` the result of `self.refresh_access_token()`; `second`
the outcome of the retried GET (consulted only on a successful refresh
after a 401). -/
def fetchDonations (hasToken : Bool) (first : HttpOutcome)
    (refreshSucceeds : Bool) (second : HttpOutcome) : FetchResult :=
  if ¬ hasToken then ⟨none, 0, 0, false⟩
  else
    match first with
    | .netError => ⟨none, 0, 0, false⟩
    | .response status data =>
      if status = 401 then
        if refreshSucceeds then
          match second with
          | .netError => ⟨none, 1, 1, false⟩
          | .response status2 data2 =>
            if status2 ≠ 200 then ⟨none, 1, 1, false⟩
            else ⟨some (data2.getD []), 1, 1, false⟩
        else ⟨none, 1, 0, false⟩
      else if status = 429 then ⟨none, 0, 0, true⟩
      else if status ≠ 200 then ⟨none, 0, 0, false⟩
      else ⟨some (data.getD []), 0, 0, false⟩

/-- The configuration fields read and written by
`DonationAlertsClient.refresh_access_token`. -/
structure ClientConfig where
  donationalerts_client_id : Option String
  donationalerts_client_secret : Option String
  donationalerts_refresh_token : Option String
  donation_alerts_token : Option String
  donationalerts_expires_at : Option Nat
deriving DecidableEq, Repr

/-- The provider token endpoint's reply: HTTP status plus the parsed JSON
fields `refresh_access_token` reads. -/
structure TokenResponse where
  status : Nat
  access_token : Option String
  refresh_token : Option String
  expires_in : Option Nat
deriving DecidableEq, Repr

/-- Result of `refresh_access_token`: the boolean return value, the updated
configuration, and the client's in-memory `api_token`. -/
structure RefreshOutcome where
  success : Bool
  config : ClientConfig
  api_token : Option String
deriving DecidableEq, Repr

/-- The method `DonationAlertsClient.refresh_access_token`.  `now` stands for
`int(time())`; `resp` for the POST's reply (the network-exception path
returns `False` with no state change, like the missing-credentials path). -/
def refreshAccessToken (cfg : ClientConfig) (apiToken : Option String)
    (now : Nat) (resp : TokenResponse) : RefreshOutcome :=
  if ¬ (truthyStr cfg.donationalerts_client_id &&
        truthyStr cfg.donationalerts_client_secret &&
        truthyStr cfg.donationalerts_refresh_token) then
    ⟨false, cfg, apiToken⟩
  else if resp.status ≠ 200 then ⟨false, cfg, apiToken⟩
  else
    let newRefresh :=
      if truthyStr resp.refresh_token then resp.refresh_token
      else cfg.donationalerts_refresh_token
    if ¬ truthyStr resp.access_token then ⟨false, cfg, apiToken⟩
    else
      let newExpires := match resp.expires_in with
        | none => cfg.donationalerts_expires_at
        | some e => if e = 0 then cfg.donationalerts_expires_at else some (now + e)
      ⟨true,
       { cfg with donation_alerts_token := resp.access_token,
                  donationalerts_refresh_token := newRefresh,
                  donationalerts_expires_at := newExpires },
       resp.access_token⟩

/-! ## `DonationAlertsPoller` (src/services/donation_alerts_poller.py) -/

/-- Reading `donation.get('id')` followed by the `if not donation_id` falsiness
check: a missing or empty identifier yields `none`. -/
def donationId (d : Donation) : Option String :=
  match d.id with
  | none => none
  | some s => if s = "" then none else some s

/-- Reading `float(donation.get('amount', 0) or 0)` (falsy numeric ↦ 0). -/
def donationAmount (d : Donation) : ℚ :=
  d.amount.getD 0

/-- Reading `donation.get('currency', 'RUB')`. -/
def donationCurrency (d : Donation) : String :=
  d.currency.getD "RUB"

/-- Reading `donation.get('message', '') or ''`. -/
def donationMessage (d : Donation) : String :=
  d.message.getD ""

/-- Reading `donation.get('username', 'Anonymous')`. -/
def donationUsername (d : Donation) : String :=
  d.username.getD "Anonymous"

/-- The method `DonationAlertsPoller._is_test_donation`: any of the four boolean-ish
keys present and truthy, or `donation.get("alert_type") or
donation.get("type")` a string case-insensitively equal to `"test"`.
(The `except: return True` fail-closed arm has no counterpart here: the
embedded detector is total.) -/
def isTestDonation (d : Donation) : Bool :=
  d.is_test.getD false || d.isTest.getD false ||
  d.test.getD false || d.testing.getD false ||
  (let alertType : Option String :=
      match d.alert_type with
      | some s => if s ≠ "" then some s else d.type
      | none => d.type
   match alertType with
   | some s => lowerAscii s = "test"
   | none => false)

/-- The `amount_rub` computed by `_process_single_donation` before the
threshold check: the raw amount, converted when the currency differs from
RUB and `convert_to_rub` returned a value (a `none`/exception from the
converter keeps the raw amount). -/
def amountRub (getRate : String → Option ℚ) (d : Donation) : ℚ :=
  let amount := donationAmount d
  let currency := donationCurrency d
  if currency ≠ "RUB" then
    match (convertToRub getRate amount (some currency)).value with
    | some converted => converted
    | none => amount
  else amount

/-- The `donation_info` snapshot handed to the background generation task. -/
structure DonationInfo where
  id : String
  username : String
  amount : ℚ
  currency : String
  amount_rub : ℚ
  message : String
  created_at : String
deriving DecidableEq, Repr

/-- The `donation_info` snapshot as built at the qualifying branch of
`_process_single_donation`. -/
def snapshot (getRate : String → Option ℚ) (d : Donation) (id : String) :
    DonationInfo :=
  { id := id
    username := donationUsername d
    amount := donationAmount d
    currency := donationCurrency d
    amount_rub := amountRub getRate d
    message := donationMessage d
    created_at := d.created_at.getD "" }

/-- One entry of the recent-donations buffer (`_record_recent`). -/
structure RecentEntry where
  id : Option String
  username : String
  amount : ℚ
  currency : String
  message : String
  created_at : String
deriving DecidableEq, Repr

/-- The pair of structures guarded by `self._processed_lock`:
`processed_donations` (a set) and `_processed_order` (its insertion
order), always mutated together. -/
structure ProcessedState where
  set : Finset String
  order : List String
deriving DecidableEq

/-- Poller state touched by the per-donation pipeline: the processed-ID
pair, `recent_donations`, `total_donations_processed`, and the list of
generation tasks spawned so far (each
`threading.Thread(target=_gen).start()` appends its `donation_info`). -/
structure PollerState where
  processed : ProcessedState
  recent_donations : List RecentEntry
  total_donations_processed : Nat
  dispatches : List DonationInfo
deriving DecidableEq

/-- The poller's freshly-initialised state (`__init__`). -/
def initialPollerState : PollerState :=
  ⟨⟨∅, []⟩, [], 0, []⟩

/-- One iteration of the trimming loop inside the processed-lock:
`old = self._processed_order.pop(0)` then a `KeyError`-tolerant
`self.processed_donations.remove(old)`.  (`pop(0)` cannot see an empty
list there, since the loop runs only while the order list exceeds the cap.) -/
def trimOnce (p : ProcessedState) : ProcessedState :=
  match p.order with
  | [] => p
  | old :: rest => ⟨p.set.erase old, rest⟩

/-- The loop `for _ in range(toTrim)` around `trimOnce`. -/
def trimMany : Nat → ProcessedState → ProcessedState
  | 0, p => p
  | n + 1, p => trimMany n (trimOnce p)

/-- The mark-as-processed block (repeated verbatim at the test, stale,
qualifying and below-threshold branches): add to the set, append to the
order list, then trim `len - 2000` entries from the front when the order
list exceeds 2000. -/
def markProcessed (p : ProcessedState) (id : String) : ProcessedState :=
  let p1 : ProcessedState := ⟨insert id p.set, p.order ++ [id]⟩
  if p1.order.length > 2000 then
    trimMany (p1.order.length - 2000) p1
  else p1

/-- The method `DonationAlertsPoller._record_recent`: append a snapshot (with `now`
standing for `datetime.now().strftime(...)` as the fallback timestamp),
then trim overflow beyond 100 from the front. -/
def recordRecent (now : String) (st : PollerState) (d : Donation) :
    PollerState :=
  let entry : RecentEntry :=
    { id := d.id
      username := donationUsername d
      amount := donationAmount d
      currency := donationCurrency d
      message := donationMessage d
      created_at := match d.created_at with
        | none => now
        | some s => if s = "" then now else s }
  let buf := st.recent_donations ++ [entry]
  { st with recent_donations :=
      if buf.length > 100 then buf.drop (buf.length - 100) else buf }

/-- The observable steps of `_process_single_donation`, in program order. -/
inductive PollerEvent
  | recordRecent (d : Donation)
  | markProcessed (id : String)
  | incrementProcessed
  | dispatch (info : DonationInfo)
deriving DecidableEq, Repr

/-- Effect of one pipeline step on the poller state. -/
def applyEvent (now : String) (st : PollerState) : PollerEvent → PollerState
  | .recordRecent d => recordRecent now st d
  | .markProcessed id => { st with processed := markProcessed st.processed id }
  | .incrementProcessed =>
    { st with total_donations_processed := st.total_donations_processed + 1 }
  | .dispatch info => { st with dispatches := st.dispatches ++ [info] }

/-- The sequence of steps `_process_single_donation` performs on a donation,
given the entry-time processed set.  `fresh d` stands for
`self._is_fresh(self._parse_created_at(donation.get('created_at', '')))`
and `getRate` for the currency converter's rate lookup; `threshold` is
`getattr(self.config, 'donation_threshold_rub', 1000)`. -/
def processTrace (fresh : Donation → Bool) (getRate : String → Option ℚ)
    (threshold : ℚ) (processed : Finset String) (d : Donation) :
    List PollerEvent :=
  match donationId d with
  | none => []
  | some id =>
    if id ∈ processed then []
    else
      PollerEvent.recordRecent d ::
      (if isTestDonation d then [PollerEvent.markProcessed id]
       else if ¬ fresh d then [PollerEvent.markProcessed id]
       else
         PollerEvent.incrementProcessed ::
         (if threshold ≤ amountRub getRate d then
            [PollerEvent.markProcessed id,
             PollerEvent.dispatch (snapshot getRate d id)]
          else [PollerEvent.markProcessed id]))

/-- The method `DonationAlertsPoller._process_single_donation`: fold the trace's
effects over the state. -/
def processSingleDonation (fresh : Donation → Bool)
    (getRate : String → Option ℚ) (threshold : ℚ) (now : String)
    (st : PollerState) (d : Donation) : PollerState :=
  List.foldl (applyEvent now) st
    (processTrace fresh getRate threshold st.processed.set d)

/-- Is this event a generation dispatch? -/
def isDispatchEvent : PollerEvent → Bool
  | .dispatch _ => true
  | _ => false

/-- The identifier recorded by a mark-processed event, if any. -/
def markedId : PollerEvent → Option String
  | .markProcessed id => some id
  | _ => none

/-- Is this event the statistics-counter increment? -/
def isIncrementEvent : PollerEvent → Bool
  | .incrementProcessed => true
  | _ => false

/-- The snapshot carried by a dispatch event, if any. -/
def dispatchedInfo : PollerEvent → Option DonationInfo
  | .dispatch info => some info
  | _ => none

/-- The data-model invariant of the Processed-ID Set: the order list has no
duplicates, the set holds exactly the order list's identifiers, and the
size is capped at 2000. -/
def ProcessedInv (p : ProcessedState) : Prop :=
  p.order.Nodup ∧ p.set = p.order.toFinset ∧ p.order.length ≤ 2000

/-- A qualifying sample donation: 150 RUB, no test flags. -/
def sampleQualifying : Donation :=
  ⟨some "d1", none, some 150, some "RUB", none, some "2026-01-01 12:00:00",
   none, none, none, none, none, none⟩

/-- A test sample donation: `is_test` present and truthy. -/
def sampleTest : Donation :=
  ⟨some "t1", none, some 150, some "RUB", none, some "2026-01-01 12:00:00",
   some true, none, none, none, none, none⟩

/-- A below-threshold sample donation: 1 RUB. -/
def sampleBelow : Donation :=
  ⟨some "b1", none, some 1, some "RUB", none, some "2026-01-01 12:00:00",
   none, none, none, none, none, none⟩

/-- A freshness oracle that accepts every donation. -/
def alwaysFresh : Donation → Bool := fun _ => true

/-- A rate oracle with no rates available. -/
def noRates : String → Option ℚ := fun _ => none

/-! ## Helper lemmas -/

/-- Association-list lookup misses every key absent from the key column. -/
theorem lookup_eq_none_of_notMem {β : Type} (k : String)
    (l : List (String × β)) (h : k ∉ l.map Prod.fst) :
    l.lookup k = none := by
  induction l with
  | nil => rfl
  | cons p t ih =>
    have hne : k ≠ p.1 := by
      intro e
      exact h (by simp [e])
    have ht : k ∉ t.map Prod.fst := by
      intro hm
      exact h (by simp [hm])
    simpa [List.lookup, beq_eq_false_iff_ne.mpr hne] using ih ht

/-- Folding the pipeline events acts on the processed pair exactly as
`markProcessed` folded over the marked identifiers. -/
theorem foldl_applyEvent_processed (now : String) (evs : List PollerEvent) :
    ∀ st : PollerState,
    (List.foldl (applyEvent now) st evs).processed =
      List.foldl markProcessed st.processed (evs.filterMap markedId) := by
  induction evs with
  | nil => intro st; rfl
  | cons e t ih =>
    intro st
    cases e with
    | recordRecent d => simpa [applyEvent, markedId, recordRecent] using ih _
    | markProcessed id => simpa [applyEvent, markedId] using ih _
    | incrementProcessed => simpa [applyEvent, markedId] using ih _
    | dispatch info => simpa [applyEvent, markedId] using ih _

/-- Folding the pipeline events adds one to the statistics counter per
increment event. -/
theorem foldl_applyEvent_total (now : String) (evs : List PollerEvent) :
    ∀ st : PollerState,
    (List.foldl (applyEvent now) st evs).total_donations_processed =
      st.total_donations_processed + evs.countP (fun e => isIncrementEvent e) := by
  induction evs with
  | nil => intro st; simp
  | cons e t ih =>
    intro st
    cases e with
    | recordRecent d =>
      simpa [applyEvent, isIncrementEvent, List.countP_cons, recordRecent] using ih _
    | markProcessed id =>
      simpa [applyEvent, isIncrementEvent, List.countP_cons] using ih _
    | incrementProcessed =>
      have := ih (applyEvent now st .incrementProcessed)
      simp [applyEvent, isIncrementEvent, List.countP_cons] at this ⊢
      omega
    | dispatch info =>
      simpa [applyEvent, isIncrementEvent, List.countP_cons] using ih _

/-- Folding the pipeline events appends exactly the dispatched snapshots. -/
theorem foldl_applyEvent_dispatches (now : String) (evs : List PollerEvent) :
    ∀ st : PollerState,
    (List.foldl (applyEvent now) st evs).dispatches =
      st.dispatches ++ evs.filterMap dispatchedInfo := by
  induction evs with
  | nil => intro st; simp
  | cons e t ih =>
    intro st
    cases e with
    | recordRecent d =>
      simpa [applyEvent, dispatchedInfo, recordRecent] using ih _
    | markProcessed id => simpa [applyEvent, dispatchedInfo] using ih _
    | incrementProcessed => simpa [applyEvent, dispatchedInfo] using ih _
    | dispatch info =>
      have := ih (applyEvent now st (.dispatch info))
      simp [applyEvent, dispatchedInfo] at this ⊢
      simp [this]

/-- Marking via `markProcessed` on a fresh identifier keeps the Processed-ID
invariant, records the identifier exactly once, leaves it a member, and
evicts only from the front of the order list. -/
theorem markProcessed_spec (p : ProcessedState) (id : String)
    (hinv : ProcessedInv p) (hnew : id ∉ p.set) :
    ProcessedInv (markProcessed p id) ∧
    List.count id (markProcessed p id).order = 1 ∧
    id ∈ (markProcessed p id).set ∧
    List.IsSuffix (markProcessed p id).order (p.order ++ [id]) := by
  obtain ⟨hnd, hset, hlen⟩ := hinv
  have hidord : id ∉ p.order := by
    intro hm
    exact hnew (hset ▸ List.mem_toFinset.mpr hm)
  by_cases hgt : (p.order ++ [id]).length > 2000
  · have hlen2 : p.order.length = 2000 := by
      simp only [List.length_append, List.length_singleton] at hgt
      omega
    cases horder : p.order with
    | nil => rw [horder] at hlen2; simp at hlen2
    | cons hd rest =>
      have hmk : markProcessed p id =
          trimMany ((p.order ++ [id]).length - 2000)
            ⟨insert id p.set, p.order ++ [id]⟩ := by
        unfold markProcessed
        rw [if_pos hgt]
      have htrim : ((p.order ++ [id]).length - 2000) = 1 := by
        simp only [List.length_append, List.length_singleton]
        omega
      rw [htrim] at hmk
      have hres : markProcessed p id =
          ⟨(insert id p.set).erase hd, rest ++ [id]⟩ := by
        rw [hmk, horder]
        rfl
      rw [horder] at hnd hidord hset hlen2
      have hhd : hd ∉ rest := (List.nodup_cons.mp hnd).1
      have hndr : rest.Nodup := (List.nodup_cons.mp hnd).2
      have hne : id ≠ hd := by
        intro e
        exact hidord (e ▸ List.mem_cons_self hd rest)
      have hidrest : id ∉ rest := fun hm => hidord (List.mem_cons_of_mem hd hm)
      rw [hres]
      refine ⟨⟨?_, ?_, ?_⟩, ?_, ?_, ?_⟩
      · simp [List.nodup_append, hndr, List.disjoint_singleton, hidrest]
      · show (insert id p.set).erase hd = (rest ++ [id]).toFinset
        rw [hset, List.toFinset_append]
        ext a
        simp only [Finset.mem_erase, Finset.mem_insert, Finset.mem_union,
          List.toFinset_cons, List.toFinset_nil, List.mem_toFinset,
          Finset.not_mem_empty, or_false]
        constructor
        · rintro ⟨hahd, rfl | rfl | ha⟩
          · exact Or.inr rfl
          · exact absurd rfl hahd
          · exact Or.inl ha
        · rintro (ha | rfl)
          · exact ⟨fun e => hhd (e ▸ ha), Or.inr (Or.inr ha)⟩
          · exact ⟨hne, Or.inl rfl⟩
      · show (rest ++ [id]).length ≤ 2000
        simp only [List.length_cons] at hlen2
        simp only [List.length_append, List.length_singleton]
        omega
      · show List.count id (rest ++ [id]) = 1
        rw [List.count_append]
        simp [List.count_eq_zero.mpr hidrest]
      · exact Finset.mem_erase.mpr ⟨hne, Finset.mem_insert_self id p.set⟩
      · exact List.suffix_cons hd (rest ++ [id])
  · have hres : markProcessed p id = ⟨insert id p.set, p.order ++ [id]⟩ := by
      unfold markProcessed
      rw [if_neg hgt]
    rw [hres]
    refine ⟨⟨?_, ?_, ?_⟩, ?_, ?_, ?_⟩
    · simp [List.nodup_append, hnd, List.disjoint_singleton, hidord]
    · rw [List.toFinset_append, hset]
      ext a
      simp [Or.comm]
    · show (p.order ++ [id]).length ≤ 2000
      exact Nat.le_of_not_lt hgt
    · rw [List.count_append]
      simp [List.count_eq_zero.mpr hidord]
    · exact Finset.mem_insert_self id p.set
    · exact List.suffix_refl _

/-- A donation with a fresh, non-empty identifier marks exactly that
identifier, whatever its classification. -/
theorem trace_marks (fresh : Donation → Bool) (getRate : String → Option ℚ)
    (threshold : ℚ) (procSet : Finset String) (d : Donation) (id : String)
    (hid : donationId d = some id) (hmem : id ∉ procSet) :
    (processTrace fresh getRate threshold procSet d).filterMap markedId
      = [id] := by
  simp only [processTrace, hid, hmem, if_false]
  split_ifs <;> simp [markedId]

/-- The trace of a qualifying donation: record, count, mark, dispatch —
in that order. -/
theorem trace_qualify (fresh : Donation → Bool) (getRate : String → Option ℚ)
    (threshold : ℚ) (procSet : Finset String) (d : Donation) (id : String)
    (hid : donationId d = some id) (hmem : id ∉ procSet)
    (htest : isTestDonation d = false) (hfresh : fresh d = true)
    (hthr : threshold ≤ amountRub getRate d) :
    processTrace fresh getRate threshold procSet d =
      [PollerEvent.recordRecent d, PollerEvent.incrementProcessed,
       PollerEvent.markProcessed id,
       PollerEvent.dispatch (snapshot getRate d id)] := by
  simp [processTrace, hid, hmem, htest, hfresh, hthr]

/-- The trace of a test donation: record, mark — and nothing else. -/
theorem trace_test (fresh : Donation → Bool) (getRate : String → Option ℚ)
    (threshold : ℚ) (procSet : Finset String) (d : Donation) (id : String)
    (hid : donationId d = some id) (hmem : id ∉ procSet)
    (htest : isTestDonation d = true) :
    processTrace fresh getRate threshold procSet d =
      [PollerEvent.recordRecent d, PollerEvent.markProcessed id] := by
  simp [processTrace, hid, hmem, htest]

/-! ## Claim theorems -/

/-- C8.  The filename-safety predicate accepts exactly the strings the
specification describes: non-empty, free of `..`, `/`, `\`, ending
case-insensitively in `.mp4`, drawn from the safe character set; in
particular `"../secret.mp4"` is rejected and `"clip-1.mp4"` accepted. -/
theorem filename_safety_exact :
    (∀ filename, isSafeVideoFilename filename = true ↔
      SafeFilenameSpec filename) ∧
    isSafeVideoFilename "../secret.mp4" = false ∧
    isSafeVideoFilename "clip-1.mp4" = true := by
  refine ⟨fun filename => ?_, by decide, by decide⟩
  unfold isSafeVideoFilename SafeFilenameSpec
  split_ifs with h1 h2 h3 h4 h5 h6 <;> simp_all

/-- C7 (counterexample).  The status string `"IDLE"` is not among the
eleven names of the mapping, yet its derived progress is 0, not 50: the
code lower-cases the status before the table lookup. -/
theorem progress_default_cex :
    "IDLE" ∉ progressMapping.map Prod.fst ∧
    statusProgress (some "IDLE") = 0 ∧
    statusProgress (some "IDLE") ≠ 50 := by
  refine ⟨by decide, by decide, by decide⟩

/-- C7 (amended).  The derived progress is exact on the eleven named
statuses; a missing or empty status is treated as `idle`; and any
non-empty status whose ASCII lower-casing is not among the eleven names
maps to 50. -/
theorem progress_mapping_exact :
    (statusProgress (some "idle") = 0 ∧
     statusProgress (some "starting") = 5 ∧
     statusProgress (some "queued") = 10 ∧
     statusProgress (some "waiting") = 15 ∧
     statusProgress (some "active") = 30 ∧
     statusProgress (some "generating") = 70 ∧
     statusProgress (some "completed") = 85 ∧
     statusProgress (some "downloading") = 90 ∧
     statusProgress (some "done") = 100 ∧
     statusProgress (some "timeout") = 100 ∧
     statusProgress (some "error") = 100) ∧
    (statusProgress none = 0 ∧ statusProgress (some "") = 0) ∧
    (∀ s : String, s ≠ "" → lowerAscii s ∉ progressMapping.map Prod.fst →
      statusProgress (some s) = 50) := by
  refine ⟨by decide, ⟨by decide, by decide⟩, fun s hs hmem => ?_⟩
  unfold statusProgress
  simp only [hs, if_false]
  rw [lookup_eq_none_of_notMem _ _ hmem]

/-- C7 (witness for the amended default clause): `"bogus"` lower-cases to
itself, misses the table, and maps to 50. -/
theorem progress_mapping_exact_witness :
    statusProgress (some "bogus") = 50 :=
  progress_mapping_exact.2.2 "bogus" (by decide) (by decide)

/-- C9.  `convert_to_rub` normalises the currency before the identity
test: a missing, empty, or (after upper-casing) `"RUB"` currency returns
the amount unchanged without consulting the rate cache or the rate API. -/
theorem convert_identity_on_rub (getRate : String → Option ℚ) (amount : ℚ)
    (fromCurrency : Option String)
    (h : fromCurrency = none ∨ fromCurrency = some "" ∨
         ∃ s, fromCurrency = some s ∧ upperAscii s = "RUB") :
    convertToRub getRate amount fromCurrency = ⟨some amount, false⟩ := by
  rcases h with h | h | ⟨s, hs, hup⟩
  · subst h
    unfold convertToRub
    simp [upperAscii]
  · subst h
    unfold convertToRub
    simp [upperAscii]
  · subst hs
    unfold convertToRub
    by_cases he : s = ""
    · simp [he, upperAscii]
    · simp [he, hup]

/-- C9 (witness): converting 5 `"rub"` is the identity and touches no
rates. -/
theorem convert_identity_on_rub_witness :
    convertToRub (fun _ => none) 5 (some "rub") = ⟨some 5, false⟩ :=
  convert_identity_on_rub (fun _ => none) 5 (some "rub")
    (Or.inr (Or.inr ⟨"rub", rfl, by decide⟩))

/-- C10.  A 200 token-refresh reply carrying an `access_token` but no
`refresh_token` updates the stored access token to the new value and
rewrites the stored refresh token with its previous value. -/
theorem refresh_keeps_old_refresh_token (cfg : ClientConfig)
    (apiToken : Option String) (now : Nat) (resp : TokenResponse)
    (hid : truthyStr cfg.donationalerts_client_id = true)
    (hsec : truthyStr cfg.donationalerts_client_secret = true)
    (href : truthyStr cfg.donationalerts_refresh_token = true)
    (hstatus : resp.status = 200)
    (hacc : truthyStr resp.access_token = true)
    (hnoref : resp.refresh_token = none) :
    (refreshAccessToken cfg apiToken now resp).success = true ∧
    (refreshAccessToken cfg apiToken now resp).config.donation_alerts_token
      = resp.access_token ∧
    (refreshAccessToken cfg apiToken now resp).config.donationalerts_refresh_token
      = cfg.donationalerts_refresh_token ∧
    (refreshAccessToken cfg apiToken now resp).api_token = resp.access_token := by
  unfold refreshAccessToken
  simp only [hid, hsec, href, hstatus, hacc, hnoref]
  simp [truthyStr]

/-- C10 (witness): a concrete refresh with no `refresh_token` in the reply
keeps the old refresh token `"r0"` and stores the new access token `"a1"`. -/
theorem refresh_keeps_old_refresh_token_witness :
    (refreshAccessToken ⟨some "cid", some "sec", some "r0", some "a0", none⟩
        (some "a0") 7 ⟨200, some "a1", none, none⟩).success = true ∧
    (refreshAccessToken ⟨some "cid", some "sec", some "r0", some "a0", none⟩
        (some "a0") 7 ⟨200, some "a1", none, none⟩).config.donation_alerts_token
      = some "a1" ∧
    (refreshAccessToken ⟨some "cid", some "sec", some "r0", some "a0", none⟩
        (some "a0") 7 ⟨200, some "a1", none, none⟩).config.donationalerts_refresh_token
      = some "r0" ∧
    (refreshAccessToken ⟨some "cid", some "sec", some "r0", some "a0", none⟩
        (some "a0") 7 ⟨200, some "a1", none, none⟩).api_token = some "a1" :=
  refresh_keeps_old_refresh_token ⟨some "cid", some "sec", some "r0", some "a0", none⟩
    (some "a0") 7 ⟨200, some "a1", none, none⟩
    (by decide) (by decide) (by decide) rfl (by decide) rfl

/-- C6 (counterexample).  A 401 first response with a failing token
refresh performs the one refresh attempt but zero retries, refuting
"exactly one token-refresh attempt followed by exactly one retry". -/
theorem fetch_401_failed_refresh_cex :
    (fetchDonations true (.response 401 none) false
        (.response 200 (some []))).refreshAttempts = 1 ∧
    (fetchDonations true (.response 401 none) false
        (.response 200 (some []))).retries = 0 ∧
    (fetchDonations true (.response 401 none) false
        (.response 200 (some []))).retries ≠ 1 := by
  refine ⟨rfl, rfl, by decide⟩

/-- C6 (amended).  With a token configured: a 401 response triggers
exactly one refresh attempt, followed by exactly one retry when the
refresh succeeds and by no retry (returning absence) when it fails; a 429
response backs off and returns absence with no retry; any other non-200
status returns absence; a network error returns absence.  (The embedded
`fetchDonations` is a total function: every failure mode normalises to an
absent value rather than an exception.) -/
theorem fetch_error_handling (refreshSucceeds : Bool) (second : HttpOutcome)
    (status : Nat) (data : Option (List Donation)) :
    (status = 401 →
      (fetchDonations true (.response status data) refreshSucceeds second).refreshAttempts = 1 ∧
      (refreshSucceeds = true →
        (fetchDonations true (.response status data) refreshSucceeds second).retries = 1) ∧
      (refreshSucceeds = false →
        (fetchDonations true (.response status data) refreshSucceeds second).retries = 0 ∧
        (fetchDonations true (.response status data) refreshSucceeds second).value = none)) ∧
    (status = 429 →
      fetchDonations true (.response status data) refreshSucceeds second
        = ⟨none, 0, 0, true⟩) ∧
    (status ≠ 401 → status ≠ 429 → status ≠ 200 →
      fetchDonations true (.response status data) refreshSucceeds second
        = ⟨none, 0, 0, false⟩) ∧
    fetchDonations true .netError refreshSucceeds second = ⟨none, 0, 0, false⟩ := by
  refine ⟨fun h401 => ?_, fun h429 => ?_, fun h1 h2 h3 => ?_, rfl⟩
  · subst h401
    unfold fetchDonations
    rcases refreshSucceeds with _ | _
    · simp
    · cases second with
      | netError => simp
      | response s2 d2 =>
        by_cases h2 : s2 = 200 <;> simp [h2]
  · subst h429
    unfold fetchDonations
    simp
  · unfold fetchDonations
    simp [h1, h2, h3]

/-- C6 (witness): a 401 answered by a successful refresh and a 200 retry
shows one refresh attempt and one retry. -/
theorem fetch_error_handling_witness :
    (fetchDonations true (.response 401 none) true
        (.response 200 (some []))).refreshAttempts = 1 ∧
    (fetchDonations true (.response 401 none) true
        (.response 200 (some []))).retries = 1 :=
  ⟨((fetch_error_handling true (.response 200 (some [])) 401 none).1 rfl).1,
   ((fetch_error_handling true (.response 200 (some [])) 401 none).1 rfl).2.1 rfl⟩

/-- C1.  A fetched donation with a non-empty, not-yet-processed identifier
that is non-test, fresh, and at or above the threshold produces exactly one
dispatch event, its mark-as-processed event strictly precedes that dispatch
in the pipeline's step order, the snapshot is handed to exactly one spawned
generation task, the identifier ends up in the Processed-ID Set, and a
duplicate fetch of the same donation afterwards produces no step at all —
in particular no second dispatch. -/
theorem qualifying_dispatch_once (fresh : Donation → Bool)
    (getRate : String → Option ℚ) (threshold : ℚ) (now : String)
    (st : PollerState) (d : Donation) (id : String)
    (hinv : ProcessedInv st.processed)
    (hid : donationId d = some id)
    (hmem : id ∉ st.processed.set)
    (htest : isTestDonation d = false)
    (hfresh : fresh d = true)
    (hthr : threshold ≤ amountRub getRate d) :
    (processTrace fresh getRate threshold st.processed.set d).countP
        isDispatchEvent = 1 ∧
    List.Sublist
      [PollerEvent.markProcessed id,
       PollerEvent.dispatch (snapshot getRate d id)]
      (processTrace fresh getRate threshold st.processed.set d) ∧
    (processSingleDonation fresh getRate threshold now st d).dispatches =
      st.dispatches ++ [snapshot getRate d id] ∧
    id ∈ (processSingleDonation fresh getRate threshold now st d).processed.set ∧
    processTrace fresh getRate threshold
      (processSingleDonation fresh getRate threshold now st d).processed.set d
      = [] := by
  have htr := trace_qualify fresh getRate threshold st.processed.set d id
    hid hmem htest hfresh hthr
  have hproc : (processSingleDonation fresh getRate threshold now st d).processed
      = markProcessed st.processed id := by
    unfold processSingleDonation
    rw [foldl_applyEvent_processed, trace_marks _ _ _ _ _ _ hid hmem]
    rfl
  have hmk := markProcessed_spec st.processed id hinv hmem
  have hmemAfter :
      id ∈ (processSingleDonation fresh getRate threshold now st d).processed.set := by
    rw [hproc]
    exact hmk.2.2.1
  refine ⟨?_, ?_, ?_, hmemAfter, ?_⟩
  · rw [htr]
    simp [List.countP_cons, isDispatchEvent]
  · rw [htr]
    exact List.Sublist.cons _ (List.Sublist.cons _ (List.Sublist.refl _))
  · unfold processSingleDonation
    rw [foldl_applyEvent_dispatches, htr]
    simp [dispatchedInfo]
  · simp [processTrace, hid, hmemAfter]

/-- C1 (witness): the 150-RUB sample donation against a 100 threshold
dispatches exactly once and leaves nothing to do on a duplicate fetch. -/
theorem qualifying_dispatch_once_witness :
    (processTrace alwaysFresh noRates 100 initialPollerState.processed.set
        sampleQualifying).countP isDispatchEvent = 1 ∧
    processTrace alwaysFresh noRates 100
      (processSingleDonation alwaysFresh noRates 100 "now" initialPollerState
        sampleQualifying).processed.set sampleQualifying = [] :=
  ⟨(qualifying_dispatch_once alwaysFresh noRates 100 "now" initialPollerState
      sampleQualifying "d1" (by exact ⟨by decide, by decide, by decide⟩)
      (by decide) (by decide) (by decide) rfl (by decide)).1,
   (qualifying_dispatch_once alwaysFresh noRates 100 "now" initialPollerState
      sampleQualifying "d1" (by exact ⟨by decide, by decide, by decide⟩)
      (by decide) (by decide) (by decide) rfl (by decide)).2.2.2.2⟩

/-- C2.  After the pipeline runs once on a donation with a non-empty
identifier, that identifier is in the Processed-ID Set and appears exactly
once in the insertion-order list, whatever the classification outcome. -/
theorem processed_exactly_once (fresh : Donation → Bool)
    (getRate : String → Option ℚ) (threshold : ℚ) (now : String)
    (st : PollerState) (d : Donation) (id : String)
    (hinv : ProcessedInv st.processed)
    (hid : donationId d = some id) :
    List.count id
      (processSingleDonation fresh getRate threshold now st d).processed.order
      = 1 ∧
    id ∈ (processSingleDonation fresh getRate threshold now st d).processed.set := by
  by_cases hmem : id ∈ st.processed.set
  · have htr : processTrace fresh getRate threshold st.processed.set d = [] := by
      simp [processTrace, hid, hmem]
    have hstate : processSingleDonation fresh getRate threshold now st d = st := by
      unfold processSingleDonation
      rw [htr]
      rfl
    rw [hstate]
    obtain ⟨hnd, hset, _⟩ := hinv
    have hord : id ∈ st.processed.order := by
      rw [hset] at hmem
      exact List.mem_toFinset.mp hmem
    exact ⟨List.count_eq_one_of_mem hnd hord, hmem⟩
  · have hproc : (processSingleDonation fresh getRate threshold now st d).processed
        = markProcessed st.processed id := by
      unfold processSingleDonation
      rw [foldl_applyEvent_processed, trace_marks _ _ _ _ _ _ hid hmem]
      rfl
    have hmk := markProcessed_spec st.processed id hinv hmem
    rw [hproc]
    exact ⟨hmk.2.1, hmk.2.2.1⟩

/-- C2 (witness): the sample test donation's identifier `"t1"` is recorded
exactly once by a run from the initial state. -/
theorem processed_exactly_once_witness :
    List.count "t1"
      (processSingleDonation alwaysFresh noRates 100 "now" initialPollerState
        sampleTest).processed.order = 1 ∧
    "t1" ∈ (processSingleDonation alwaysFresh noRates 100 "now"
      initialPollerState sampleTest).processed.set :=
  processed_exactly_once alwaysFresh noRates 100 "now" initialPollerState
    sampleTest "t1" (by exact ⟨by decide, by decide, by decide⟩) (by decide)

/-- C3.  A donation classified as test never reaches the dispatch step: its
trace contains no dispatch event, the spawned-task list is unchanged, and
its identifier is marked processed. -/
theorem test_donation_never_dispatches (fresh : Donation → Bool)
    (getRate : String → Option ℚ) (threshold : ℚ) (now : String)
    (st : PollerState) (d : Donation) (id : String)
    (hinv : ProcessedInv st.processed)
    (hid : donationId d = some id)
    (htest : isTestDonation d = true) :
    (processTrace fresh getRate threshold st.processed.set d).countP
        isDispatchEvent = 0 ∧
    (processSingleDonation fresh getRate threshold now st d).dispatches
      = st.dispatches ∧
    id ∈ (processSingleDonation fresh getRate threshold now st d).processed.set := by
  by_cases hmem : id ∈ st.processed.set
  · have htr : processTrace fresh getRate threshold st.processed.set d = [] := by
      simp [processTrace, hid, hmem]
    have hstate : processSingleDonation fresh getRate threshold now st d = st := by
      unfold processSingleDonation
      rw [htr]
      rfl
    rw [hstate, htr]
    exact ⟨rfl, rfl, hmem⟩
  · have htr := trace_test fresh getRate threshold st.processed.set d id
      hid hmem htest
    have hproc : (processSingleDonation fresh getRate threshold now st d).processed
        = markProcessed st.processed id := by
      unfold processSingleDonation
      rw [foldl_applyEvent_processed, trace_marks _ _ _ _ _ _ hid hmem]
      rfl
    have hmk := markProcessed_spec st.processed id hinv hmem
    refine ⟨?_, ?_, ?_⟩
    · rw [htr]
      simp [List.countP_cons, isDispatchEvent]
    · unfold processSingleDonation
      rw [foldl_applyEvent_dispatches, htr]
      simp [dispatchedInfo]
    · rw [hproc]
      exact hmk.2.2.1

/-- C3 (witness): the `is_test` sample donation is marked processed and
spawns no generation task. -/
theorem test_donation_never_dispatches_witness :
    (processTrace alwaysFresh noRates 100 initialPollerState.processed.set
        sampleTest).countP isDispatchEvent = 0 ∧
    (processSingleDonation alwaysFresh noRates 100 "now" initialPollerState
        sampleTest).dispatches = [] ∧
    "t1" ∈ (processSingleDonation alwaysFresh noRates 100 "now"
      initialPollerState sampleTest).processed.set :=
  ⟨(test_donation_never_dispatches alwaysFresh noRates 100 "now"
      initialPollerState sampleTest "t1" (by exact ⟨by decide, by decide, by decide⟩)
      (by decide) (by decide)).1,
   (test_donation_never_dispatches alwaysFresh noRates 100 "now"
      initialPollerState sampleTest "t1" (by exact ⟨by decide, by decide, by decide⟩)
      (by decide) (by decide)).2.1,
   (test_donation_never_dispatches alwaysFresh noRates 100 "now"
      initialPollerState sampleTest "t1" (by exact ⟨by decide, by decide, by decide⟩)
      (by decide) (by decide)).2.2⟩

/-- C4.  The pipeline preserves the Processed-ID invariant — order list
duplicate-free, set and list holding exactly the same identifiers, at most
2000 of them — and the resulting order list is a suffix of the old list
plus the newly marked identifiers: evictions only remove the
oldest-inserted entries, from the front. -/
theorem processed_set_bounded_fifo (fresh : Donation → Bool)
    (getRate : String → Option ℚ) (threshold : ℚ) (now : String)
    (st : PollerState) (d : Donation)
    (hinv : ProcessedInv st.processed) :
    ProcessedInv (processSingleDonation fresh getRate threshold now st d).processed ∧
    List.IsSuffix
      (processSingleDonation fresh getRate threshold now st d).processed.order
      (st.processed.order ++
        (processTrace fresh getRate threshold st.processed.set d).filterMap
          markedId) := by
  cases hid : donationId d with
  | none =>
    have htr : processTrace fresh getRate threshold st.processed.set d = [] := by
      simp [processTrace, hid]
    have hstate : processSingleDonation fresh getRate threshold now st d = st := by
      unfold processSingleDonation
      rw [htr]
      rfl
    rw [hstate, htr]
    refine ⟨hinv, ?_⟩
    rw [List.filterMap_nil, List.append_nil]
  | some id =>
    by_cases hmem : id ∈ st.processed.set
    · have htr : processTrace fresh getRate threshold st.processed.set d = [] := by
        simp [processTrace, hid, hmem]
      have hstate : processSingleDonation fresh getRate threshold now st d = st := by
        unfold processSingleDonation
        rw [htr]
        rfl
      rw [hstate, htr]
      refine ⟨hinv, ?_⟩
      rw [List.filterMap_nil, List.append_nil]
    · have hproc : (processSingleDonation fresh getRate threshold now st d).processed
          = markProcessed st.processed id := by
        unfold processSingleDonation
        rw [foldl_applyEvent_processed, trace_marks _ _ _ _ _ _ hid hmem]
        rfl
      have hmk := markProcessed_spec st.processed id hinv hmem
      rw [hproc, trace_marks _ _ _ _ _ _ hid hmem]
      exact ⟨hmk.1, hmk.2.2.2⟩

/-- C4 (witness): one qualifying run from the initial state keeps the
invariant. -/
theorem processed_set_bounded_fifo_witness :
    ProcessedInv (processSingleDonation alwaysFresh noRates 100 "now"
      initialPollerState sampleQualifying).processed :=
  (processed_set_bounded_fifo alwaysFresh noRates 100 "now" initialPollerState
    sampleQualifying (by exact ⟨by decide, by decide, by decide⟩)).1

/-- C5 (counterexample).  A fresh, non-test donation of 1 RUB against a
1000-RUB threshold is not dispatched, yet `total_donations_processed`
is incremented: the counter is not exclusive to the dispatched path. -/
theorem counter_incremented_without_dispatch_cex :
    (processSingleDonation alwaysFresh noRates 1000 "now" initialPollerState
        sampleBelow).total_donations_processed = 1 ∧
    (processSingleDonation alwaysFresh noRates 1000 "now" initialPollerState
        sampleBelow).dispatches = [] :=
  ⟨by decide, by decide⟩

/-- C5 (amended).  `total_donations_processed` grows by exactly one when
the donation survives the identifier, dedupe, test and freshness filters —
whether or not it then reaches the threshold and is dispatched — and is
unchanged for id-less, duplicate, test, or stale donations. -/
theorem counter_increment_characterisation (fresh : Donation → Bool)
    (getRate : String → Option ℚ) (threshold : ℚ) (now : String)
    (st : PollerState) (d : Donation) :
    (processSingleDonation fresh getRate threshold now st d).total_donations_processed
      = st.total_donations_processed +
        (match donationId d with
         | none => 0
         | some id =>
           if id ∈ st.processed.set then 0
           else if isTestDonation d then 0
           else if fresh d then 1 else 0) := by
  unfold processSingleDonation
  rw [foldl_applyEvent_total]
  congr 1
  cases hid : donationId d with
  | none => simp [processTrace, hid]
  | some id =>
    by_cases hmem : id ∈ st.processed.set
    · simp [processTrace, hid, hmem]
    · by_cases htest : isTestDonation d
      · simp [processTrace, hid, hmem, htest, List.countP_cons, isIncrementEvent]
      · by_cases hfresh : fresh d
        · by_cases hthr : threshold ≤ amountRub getRate d <;>
            simp [processTrace, hid, hmem, htest, hfresh, hthr,
              List.countP_cons, isIncrementEvent]
        · simp [processTrace, hid, hmem, htest, hfresh,
            List.countP_cons, isIncrementEvent]

end StreamSpark
